/-
  Verification of the chromedriver protocol-client core against its
  natural-language specification.

  The development shallowly embeds the relevant parts of the repository:
  pure functions become Lean functions, stateful code becomes explicit
  state passing, machine integers become Int with explicit range checks
  where the code checks them, and fallible code returns Option/Except.

  Where a function's implementation file is not part of the repository
  snapshot (only its header, its unit tests or its callers are), the
  definition is modelled from the specification's words, cross-checked
  against the unit tests; such definitions carry a doc comment starting
  with "Modelled from the spec:".
-/
import Mathlib

/-! ## Status (chrome/status.h / status.cc)

The repository's `Status` is a code plus a human-readable message; the
constructor prefixes the detail text with the code's standard phrase
("unknown error: <detail>" and so on), exactly as the unit tests expect. -/

/-- Status codes used by the embedded fragment (chrome/status.h). -/
inductive StatusCode where
  | kOk
  | kUnknownError
  | kInvalidArgument
  | kNoSuchWindow
  | kNoSuchFrame
  | kUnknownCommand
  | kTimeout
  | kDisconnected
  | kUnexpectedAlertOpen
  deriving DecidableEq, Repr

/-- The standard phrase for a status code (status.cc). -/
def StatusCode.phrase : StatusCode → String
  | .kOk => "ok"
  | .kUnknownError => "unknown error"
  | .kInvalidArgument => "invalid argument"
  | .kNoSuchWindow => "no such window"
  | .kNoSuchFrame => "no such frame"
  | .kUnknownCommand => "unknown command"
  | .kTimeout => "timeout"
  | .kDisconnected => "disconnected"
  | .kUnexpectedAlertOpen => "unexpected alert open"

/-- `Status`: a code and the detail text passed to the constructor. -/
structure Status where
  code : StatusCode
  details : String
  deriving DecidableEq, Repr

/-- `Status(code)` with no detail text. -/
def Status.mk1 (c : StatusCode) : Status := ⟨c, ""⟩

/-- `Status::message()`: the code's phrase, with ": <details>" appended
when details are present (status.cc). -/
def Status.message (s : Status) : String :=
  if s.details = "" then s.code.phrase else s.code.phrase ++ ": " ++ s.details

/-- `Status::IsOk()`. -/
def Status.IsOk (s : Status) : Bool := s.code = StatusCode.kOk

/-- `Status::IsError()`. -/
def Status.IsError (s : Status) : Bool := ¬ s.code = StatusCode.kOk

/-! ## A small JSON value model (base::Value)

Only what the embedded functions inspect: strings, integers, booleans,
dictionaries (association lists keyed by strings, first binding wins,
as `base::Value::Dict` lookups see one value per key) and lists. -/

/-- A JSON value (`base::Value`). -/
inductive JVal where
  | vnull
  | vbool (b : Bool)
  | vint (n : Int)
  | vstr (s : String)
  | vlist (xs : List JVal)
  | vdict (d : List (String × JVal))

/-- A JSON dictionary (`base::Value::Dict`) as an association list. -/
abbrev JDict := List (String × JVal)

mutual

/-- Decidable equality for `JVal`. -/
def JVal.beq : JVal → JVal → Bool
  | .vnull, .vnull => true
  | .vbool a, .vbool b => a = b
  | .vint a, .vint b => a = b
  | .vstr a, .vstr b => a = b
  | .vlist a, .vlist b => JVal.beqList a b
  | .vdict a, .vdict b => JVal.beqDict a b
  | _, _ => false

/-- Elementwise equality of JSON lists. -/
def JVal.beqList : List JVal → List JVal → Bool
  | [], [] => true
  | a :: as, b :: bs => JVal.beq a b && JVal.beqList as bs
  | _, _ => false

/-- Elementwise equality of JSON dictionaries. -/
def JVal.beqDict : List (String × JVal) → List (String × JVal) → Bool
  | [], [] => true
  | (ka, va) :: as, (kb, vb) :: bs => ka = kb && JVal.beq va vb && JVal.beqDict as bs
  | _, _ => false

end

mutual

/-- `JVal.beq` is sound and complete for propositional equality. -/
theorem JVal.beq_iff : ∀ a b : JVal, JVal.beq a b = true ↔ a = b
  | .vnull, b => by cases b <;> simp [JVal.beq]
  | .vbool x, b => by cases b <;> simp [JVal.beq]
  | .vint x, b => by cases b <;> simp [JVal.beq]
  | .vstr x, b => by cases b <;> simp [JVal.beq]
  | .vlist xs, b => by
      cases b <;> simp [JVal.beq]
      exact JVal.beqList_iff xs _
  | .vdict d, b => by
      cases b <;> simp [JVal.beq]
      exact JVal.beqDict_iff d _

/-- `JVal.beqList` is sound and complete. -/
theorem JVal.beqList_iff : ∀ a b : List JVal, JVal.beqList a b = true ↔ a = b
  | [], b => by cases b <;> simp [JVal.beqList]
  | x :: xs, b => by
      cases b with
      | nil => simp [JVal.beqList]
      | cons y ys =>
          simp [JVal.beqList, Bool.and_eq_true, JVal.beq_iff x y, JVal.beqList_iff xs ys]

/-- `JVal.beqDict` is sound and complete. -/
theorem JVal.beqDict_iff : ∀ a b : List (String × JVal), JVal.beqDict a b = true ↔ a = b
  | [], b => by cases b <;> simp [JVal.beqDict]
  | (k, v) :: xs, b => by
      cases b with
      | nil => simp [JVal.beqDict]
      | cons y ys =>
          obtain ⟨k2, v2⟩ := y
          simp [JVal.beqDict, Bool.and_eq_true, JVal.beq_iff v v2, JVal.beqDict_iff xs ys,
            and_assoc]

end

instance : DecidableEq JVal := fun a b =>
  decidable_of_iff (JVal.beq a b = true) (JVal.beq_iff a b)

/-- `base::Value::Dict::FindKey` / `Find`: the value bound to a key. -/
def JDict.findKey (d : JDict) (k : String) : Option JVal :=
  match d with
  | [] => none
  | (k', v) :: rest => if k' = k then some v else JDict.findKey rest k

/-- `base::Value::GetIfString`: the string payload, when the value is a string. -/
def JVal.getString : JVal → Option String
  | .vstr s => some s
  | _ => none

/-- `base::Value::GetIfDict`: the dictionary payload, when the value is one. -/
def JVal.getDict : JVal → Option JDict
  | .vdict d => some d
  | _ => none

/-- `base::Value::GetIfInt`. -/
def JVal.getInt : JVal → Option Int
  | .vint n => some n
  | _ => none

/-- `base::Value::Dict::FindString`: present and a string, else none. -/
def JDict.findString (d : JDict) (k : String) : Option String :=
  (d.findKey k).bind JVal.getString

/-- `base::Value::Dict::FindDict`: present and a dictionary, else none. -/
def JDict.findDict (d : JDict) (k : String) : Option JDict :=
  (d.findKey k).bind JVal.getDict

/-- `base::Value::Dict::FindInt`. -/
def JDict.findInt (d : JDict) (k : String) : Option Int :=
  (d.findKey k).bind JVal.getInt

/-- `base::Value::Dict::Remove`: drop every binding of the key. -/
def JDict.removeKey (d : JDict) (k : String) : JDict :=
  d.filter (fun p => ¬ p.1 = k)

/-- `base::Value::Dict::Set`: bind a key, replacing the first existing
binding (lookups only ever see the first binding, so replacing the first
occurrence realizes the C++ map update). -/
def JDict.setKey (d : JDict) (k : String) (v : JVal) : JDict :=
  match d with
  | [] => [(k, v)]
  | (k', v') :: rest =>
      if k' = k then (k, v) :: rest else (k', v') :: JDict.setKey rest k v

/-! ## BidiTracker (chrome/bidi_tracker.cc)

`BidiTracker::OnEvent` inspects `Runtime.bindingCalled` events and hands
the `payload` dictionary to the session-supplied BiDi callback. The
callback's invocation is returned as data (`some payload`); the C++
`CHECK` failure of `base::Value::GetString()` on a non-string `name`
value is modelled as `none` at the outer `Option` layer. -/

/-- `BidiTracker::OnEvent(client, method, params)` (bidi_tracker.cc:24).
Result: `none` models the `GetString` CHECK crash on a non-string
`name`; otherwise `some (status, payloadPassedToCallback?)`. -/
def BidiTracker.OnEvent (method : String) (params : JDict) :
    Option (Status × Option JDict) :=
  if ¬ method = "Runtime.bindingCalled" then
    some (Status.mk1 .kOk, none)
  else
    match params.findKey "name" with
    | none => some (⟨.kUnknownError, "Runtime.bindingCalled missing 'name'"⟩, none)
    | some nameVal =>
      match nameVal.getString with
      | none => none
      | some name =>
        if ¬ name = "sendBidiResponse" then
          some (Status.mk1 .kOk, none)
        else
          match params.findDict "payload" with
          | none => some (⟨.kUnknownError, "Runtime.bindingCalled missing 'payload'"⟩, none)
          | some payload => some (Status.mk1 .kOk, some payload)

/-! ## Session (session.cc): SplitChannel and OnBidiResponse -/

/-- A decimal digit, by code point (kernel-reducible form of
`base::IsAsciiDigit`). -/
def isDecDigit (c : Char) : Bool := 48 ≤ c.toNat ∧ c.toNat ≤ 57

/-- `base::StringToInt`: an optional leading minus sign followed by at
least one decimal digit, nothing else, and the value must fit a 32-bit
signed int (the C++ helper reports failure on empty input, stray
characters and overflow). -/
def StringToInt (s : String) : Option Int :=
  let neg := s.data.headD ' ' = '-'
  let digits := if neg then s.data.tail else s.data
  if digits.isEmpty then none
  else if ¬ digits.all isDecDigit then none
  else
    let mag : Int := digits.foldl (fun a c => a * 10 + (Int.ofNat (c.toNat - 48))) 0
    let val : Int := if neg then -mag else mag
    if val < -(2 ^ 31) ∨ 2 ^ 31 - 1 < val then none else some val

/-- The loop `for (; k && (*channel)[k - 1] != '/'; --k)` of
`internal::SplitChannel`: scan down from `k`, stopping at 0 or just
after a '/'. -/
def slashStop (cs : List Char) : Nat → Nat
  | 0 => 0
  | k + 1 => if cs.get? k = some '/' then k + 1 else slashStop cs k

/-- `internal::SplitChannel(channel, connection_id, suffix)`
(session.cc:33). The C++ mutates `*channel` in place and fills the two
out-parameters; the embedding returns `(remaining channel, connection
id, suffix)` on success. -/
def SplitChannel (channel : String) : Except Status (String × Int × String) :=
  let cs := channel.data
  let k1 := slashStop cs cs.length
  if k1 = 0 then
    .error ⟨.kUnknownError, "goog:channel does not end with an expected suffix"⟩
  else
    let suffix := String.mk (cs.drop (k1 - 1))
    let cs1 := cs.take (k1 - 1)
    let k2 := slashStop cs1 (k1 - 1)
    if k2 = 0 then
      .error ⟨.kUnknownError, "goog:channel does not contain connection_id"⟩
    else
      let connectionStr := String.mk (cs1.drop k2)
      let cs2 := cs1.take (k2 - 1)
      match StringToInt connectionStr with
      | none => .error ⟨.kUnknownError, "connection_id in the channel must be integer"⟩
      | some cid => .ok (String.mk cs2, cid, suffix)

/-- `Session::kChannelSuffix` (session.cc:113). -/
def Session.kChannelSuffix : String := "/chan"

/-- What `Session::OnBidiResponse` did with a payload: the final status,
the connection (if any) whose `send_response` callback was invoked, and
the dictionary that was serialized into the forwarded message. -/
structure BidiResponseOutcome where
  status : Status
  sentTo : Option Int
  finalPayload : JDict
  deriving DecidableEq

/-- `Session::OnBidiResponse(payload)` (session.cc:217), for a session
whose registered BiDi connections have the given ids. `SplitChannel`
mutates the `goog:channel` string in place through the pointer returned
by `FindString`, so on success the payload's `goog:channel` becomes the
remaining head — removed entirely when that head is empty. JSON
serialization of the payload is modelled as always succeeding (the
base::JSONWriter only fails on value kinds our dictionaries cannot
hold), so the forwarded message is represented by the serialized
dictionary itself. -/
def Session.OnBidiResponse (connections : List Int) (payload : JDict) :
    BidiResponseOutcome :=
  match payload.findString "goog:channel" with
  | none => ⟨⟨.kUnknownError, "goog:channel is missing in the BiDi response"⟩, none, payload⟩
  | some channel =>
    match SplitChannel channel with
    | .error st => ⟨st, none, payload⟩
    | .ok (head, connectionId, suffix) =>
      let payload1 := if head = "" then payload.removeKey "goog:channel"
                      else payload.setKey "goog:channel" (.vstr head)
      if head = "" ∨ suffix = Session.kChannelSuffix then
        if connections.contains connectionId then
          ⟨Status.mk1 .kOk, some connectionId, payload1⟩
        else
          ⟨Status.mk1 .kOk, none, payload1⟩
      else
        ⟨⟨.kUnknownError, "unexpected channel name in the BiDi response"⟩, none, payload1⟩

instance {ε α : Type} [DecidableEq ε] [DecidableEq α] : DecidableEq (Except ε α) := fun a b =>
  match a, b with
  | .ok x, .ok y => decidable_of_iff (x = y) (by constructor <;> intro h <;> simp_all)
  | .error x, .error y => decidable_of_iff (x = y) (by constructor <;> intro h <;> simp_all)
  | .ok _, .error _ => isFalse (by simp)
  | .error _, .ok _ => isFalse (by simp)

/-! ### Dictionary lemmas -/

/-- A key just removed is no longer found. -/
theorem JDict.findKey_removeKey_self (d : JDict) (k : String) :
    (d.removeKey k).findKey k = none := by
  induction d with
  | nil => rfl
  | cons p rest ih =>
      obtain ⟨k', v⟩ := p
      by_cases h : k' = k <;>
        simp [JDict.removeKey, JDict.findKey, h, List.filter] at ih ⊢ <;>
        simpa [JDict.removeKey] using ih

/-- A key just set is found with the new value. -/
theorem JDict.findKey_setKey_self (d : JDict) (k : String) (v : JVal) :
    (d.setKey k v).findKey k = some v := by
  induction d with
  | nil => simp [JDict.setKey, JDict.findKey]
  | cons p rest ih =>
      obtain ⟨k', v'⟩ := p
      by_cases h : k' = k <;> simp [JDict.setKey, JDict.findKey, h, ih]

/-- `FindString` succeeds exactly on a string-valued binding. -/
theorem JDict.findString_eq_some (d : JDict) (k : String) (s : String) :
    d.findString k = some s ↔ d.findKey k = some (.vstr s) := by
  unfold JDict.findString
  cases h : d.findKey k with
  | none => simp
  | some v => cases v <;> simp [JVal.getString]

/-- An absent key is not found as a dictionary either. -/
theorem JDict.findDict_of_findKey_none (d : JDict) (k : String)
    (h : d.findKey k = none) : d.findDict k = none := by
  unfold JDict.findDict
  simp [h]

/-! ## Claim C9: BidiTracker::OnEvent error and pass-through behavior -/

/-- C9: `BidiTracker::OnEvent` returns an Unknown error when a
`Runtime.bindingCalled` event's params lack the `name` key, or when
`name` equals "sendBidiResponse" but the `payload` key is missing; for
every event whose method is not `Runtime.bindingCalled`, or whose name
is a string different from "sendBidiResponse", it returns Ok without
invoking the BiDi callback. -/
theorem c9_bidiTracker_onEvent :
    (∀ params : JDict, params.findKey "name" = none →
      BidiTracker.OnEvent "Runtime.bindingCalled" params =
        some (⟨.kUnknownError, "Runtime.bindingCalled missing 'name'"⟩, none))
    ∧ (∀ params : JDict, params.findString "name" = some "sendBidiResponse" →
      params.findKey "payload" = none →
      BidiTracker.OnEvent "Runtime.bindingCalled" params =
        some (⟨.kUnknownError, "Runtime.bindingCalled missing 'payload'"⟩, none))
    ∧ (∀ (method : String) (params : JDict), ¬ method = "Runtime.bindingCalled" →
      BidiTracker.OnEvent method params = some (Status.mk1 .kOk, none))
    ∧ (∀ (params : JDict) (name : String), params.findString "name" = some name →
      ¬ name = "sendBidiResponse" →
      BidiTracker.OnEvent "Runtime.bindingCalled" params = some (Status.mk1 .kOk, none)) := by
  refine ⟨?_, ?_, ?_, ?_⟩
  · intro params h
    simp [BidiTracker.OnEvent, h]
  · intro params hname hpayload
    rw [JDict.findString_eq_some] at hname
    simp [BidiTracker.OnEvent, hname, JVal.getString,
      JDict.findDict_of_findKey_none params "payload" hpayload]
  · intro method params h
    simp [BidiTracker.OnEvent, h]
  · intro params name hname hne
    rw [JDict.findString_eq_some] at hname
    simp [BidiTracker.OnEvent, hname, JVal.getString, hne]

/-! ## Claim C10: Session::OnBidiResponse on unmatched connection ids

The claim asserts that any payload whose `goog:channel` splits into a
valid integer connection id matching no registered connection is
dropped with Ok. The code additionally rejects the message (before the
connection lookup is reached) when the remaining channel head is
non-empty and the suffix is not `Session::kChannelSuffix`; the
counterexample exercises exactly that path. -/

/-- C10 counterexample: the payload `{goog:channel: "a/7/x"}` splits
into connection id 7 (matching no registered connection — there are
none) with remaining head "a" and suffix "/x", yet `OnBidiResponse`
returns the Unknown error "unexpected channel name in the BiDi
response" instead of the claimed Ok. -/
theorem c10_counterexample :
    SplitChannel "a/7/x" = .ok ("a", 7, "/x")
    ∧ (Session.OnBidiResponse [] [("goog:channel", JVal.vstr "a/7/x")]).status =
        ⟨.kUnknownError, "unexpected channel name in the BiDi response"⟩
    ∧ ¬ (Session.OnBidiResponse [] [("goog:channel", JVal.vstr "a/7/x")]).status.code =
        StatusCode.kOk := by
  decide

/-- C10 (amended): when additionally the remaining channel head is
empty or the suffix is the reserved `Session::kChannelSuffix`,
`OnBidiResponse` on a connection id matching no registered connection
returns Ok, invokes no connection's `send_response` callback, and the
payload's `goog:channel` is removed exactly when the remaining head is
empty (otherwise it is rewritten to the head). -/
theorem c10_amended (payload : JDict) (channel head suffix : String) (cid : Int)
    (connections : List Int)
    (hfind : payload.findString "goog:channel" = some channel)
    (hsplit : SplitChannel channel = .ok (head, cid, suffix))
    (hok : head = "" ∨ suffix = Session.kChannelSuffix)
    (hmiss : connections.contains cid = false) :
    (Session.OnBidiResponse connections payload).status = Status.mk1 .kOk
    ∧ (Session.OnBidiResponse connections payload).sentTo = none
    ∧ (Session.OnBidiResponse connections payload).finalPayload.findKey "goog:channel" =
        (if head = "" then none else some (.vstr head)) := by
  simp only [Session.OnBidiResponse, hfind, hsplit]
  rw [if_pos hok]
  simp only [hmiss, Bool.false_eq_true, if_false]
  refine ⟨trivial, trivial, ?_⟩
  by_cases h : head = ""
  · simp only [h, if_pos rfl]
    exact payload.findKey_removeKey_self "goog:channel"
  · simp only [if_neg h]
    exact payload.findKey_setKey_self "goog:channel" (.vstr head)

/-- C10 witness: the amended theorem applied to the concrete payload
`{goog:channel: "x/9/chan", id: 1}` with no registered connections. -/
theorem c10_amended_witness :
    (Session.OnBidiResponse [] [("goog:channel", JVal.vstr "x/9/chan"), ("id", JVal.vint 1)]).status
      = Status.mk1 .kOk
    ∧ (Session.OnBidiResponse []
        [("goog:channel", JVal.vstr "x/9/chan"), ("id", JVal.vint 1)]).sentTo = none
    ∧ (Session.OnBidiResponse []
        [("goog:channel", JVal.vstr "x/9/chan"), ("id", JVal.vint 1)]).finalPayload.findKey
          "goog:channel" = (if "x" = "" then none else some (.vstr "x")) :=
  c10_amended [("goog:channel", JVal.vstr "x/9/chan"), ("id", JVal.vint 1)]
    "x/9/chan" "x" "/chan" 9 [] (by decide) (by decide) (by decide) (by decide)

/-! ## MessageCodec: ParseInspectorError (spec section 4.1)

The implementation file `devtools_client_impl.cc` is not part of the
repository snapshot; only its header (declaring
`internal::ParseInspectorError`) and its unit tests are. The function is
therefore modelled from the specification, cross-checked against the
unit tests at lines 909-972 of devtools_client_impl_unittest.cc. -/

/-- Does `pat` occur contiguously inside `hay`? -/
def listContains (hay pat : List Char) : Bool :=
  match hay with
  | [] => pat.isEmpty
  | _ :: tl => pat.isPrefixOf hay || listContains tl pat

/-- Substring containment over the characters of two strings (the
kernel-reducible form of `std::string::find != npos`). -/
def strContains (hay pat : String) : Bool := listContains hay.data pat.data

/-- Modelled from the spec: an inspector error object as
`ParseInspectorError` inspects it — the raw JSON text plus its parsed
optional `code` and `message` fields. JSON parsing itself is not
modelled; `devtools_client_impl.cc` is missing from the snapshot. -/
structure InspectorErrorView where
  raw : String
  code : Option Int
  message : Option String
  deriving DecidableEq

/-- Modelled from the spec: `internal::ParseInspectorError(error_json)`
(declared in the `devtools_client_impl.h` text embedded in
src/chrome/page_tracker.cc:339). Precedence per spec section 4.1:
(1) empty error text; (2) known message substrings regardless of code
(the invalid-URL phrase before the missing-frame phrase — the two never
co-occur in practice); (3) the numeric-code table with the
"No target with given id found" exception; (4) the generic fallback
carrying the original JSON text. -/
def ParseInspectorError (e : InspectorErrorView) : Status :=
  if e.raw = "" then ⟨.kUnknownError, "inspector error with no error message"⟩
  else
    let msg := e.message.getD ""
    if strContains msg "Cannot navigate to invalid URL" then ⟨.kInvalidArgument, msg⟩
    else if strContains msg "Frame with the given id was not found." then ⟨.kNoSuchFrame, msg⟩
    else
      match e.code with
      | some c =>
        if c = -32602 then
          if msg = "No target with given id found" then ⟨.kNoSuchWindow, msg⟩
          else ⟨.kInvalidArgument, msg⟩
        else if c = -32001 then ⟨.kNoSuchFrame, msg⟩
        else if c = -32601 then ⟨.kUnknownCommand, msg⟩
        else ⟨.kUnknownError, "unhandled inspector error: " ++ e.raw⟩
      | none => ⟨.kUnknownError, "unhandled inspector error: " ++ e.raw⟩

/-- Appending cannot erase a non-empty left part. -/
theorem strAppend_ne_empty (a b : String) (h : ¬ a = "") : ¬ (a ++ b) = "" := by
  intro he
  apply h
  have hd := congrArg String.data he
  rw [String.data_append] at hd
  have ha : a.data = [] := (List.append_eq_nil.mp hd).1
  cases a with
  | mk data => simpa [String.ext_iff] using ha

/-- Folding the two literal message parts of the generic fallback. -/
theorem unhandled_message_fold (raw : String) :
    "unknown error: " ++ ("unhandled inspector error: " ++ raw) =
      "unknown error: unhandled inspector error: " ++ raw := by
  rw [← String.append_assoc]
  have h : ("unknown error: " : String) ++ "unhandled inspector error: " =
      "unknown error: unhandled inspector error: " := by decide
  rw [h]

/-- C3: `ParseInspectorError` precedence — empty error text yields
Unknown ("unknown error: inspector error with no error message"); the
known message substrings win regardless of numeric code ("Cannot
navigate to invalid URL" → InvalidArgument; "Frame with the given id
was not found." → NoSuchFrame even with code -32000); otherwise the
code table applies (-32602 → InvalidArgument "invalid argument: <msg>"
unless the message is "No target with given id found" → NoSuchWindow;
-32001 → NoSuchFrame "no such frame: <msg>"; -32601 → UnknownCommand
"unknown command: <msg>"); every other input yields Unknown with
"unknown error: unhandled inspector error: " followed by the original
JSON text. The final conjuncts replay the unit-test vectors
(devtools_client_impl_unittest.cc:909-972). -/
theorem c3_parseInspectorError :
    (∀ c m, ParseInspectorError ⟨"", c, m⟩ =
        ⟨.kUnknownError, "inspector error with no error message"⟩
      ∧ (ParseInspectorError ⟨"", c, m⟩).message =
        "unknown error: inspector error with no error message")
    ∧ (∀ raw c m, ¬ raw = "" →
        strContains m "Cannot navigate to invalid URL" = true →
        (ParseInspectorError ⟨raw, c, some m⟩).code = .kInvalidArgument)
    ∧ (∀ raw c m, ¬ raw = "" →
        strContains m "Cannot navigate to invalid URL" = false →
        strContains m "Frame with the given id was not found." = true →
        ParseInspectorError ⟨raw, c, some m⟩ = ⟨.kNoSuchFrame, m⟩)
    ∧ (∀ raw m, ¬ raw = "" →
        strContains m "Cannot navigate to invalid URL" = false →
        strContains m "Frame with the given id was not found." = false →
        ¬ m = "No target with given id found" →
        ParseInspectorError ⟨raw, some (-32602), some m⟩ = ⟨.kInvalidArgument, m⟩
        ∧ (¬ m = "" → (ParseInspectorError ⟨raw, some (-32602), some m⟩).message =
            "invalid argument: " ++ m))
    ∧ (∀ raw, ¬ raw = "" →
        ParseInspectorError ⟨raw, some (-32602), some "No target with given id found"⟩ =
          ⟨.kNoSuchWindow, "No target with given id found"⟩)
    ∧ (∀ raw m, ¬ raw = "" →
        strContains m "Cannot navigate to invalid URL" = false →
        strContains m "Frame with the given id was not found." = false →
        ParseInspectorError ⟨raw, some (-32001), some m⟩ = ⟨.kNoSuchFrame, m⟩
        ∧ (¬ m = "" → (ParseInspectorError ⟨raw, some (-32001), some m⟩).message =
            "no such frame: " ++ m))
    ∧ (∀ raw m, ¬ raw = "" →
        strContains m "Cannot navigate to invalid URL" = false →
        strContains m "Frame with the given id was not found." = false →
        ParseInspectorError ⟨raw, some (-32601), some m⟩ = ⟨.kUnknownCommand, m⟩
        ∧ (¬ m = "" → (ParseInspectorError ⟨raw, some (-32601), some m⟩).message =
            "unknown command: " ++ m))
    ∧ (∀ raw c m, ¬ raw = "" →
        strContains (m.getD "") "Cannot navigate to invalid URL" = false →
        strContains (m.getD "") "Frame with the given id was not found." = false →
        (∀ cv, c = some cv → ¬ cv = -32602 ∧ ¬ cv = -32001 ∧ ¬ cv = -32601) →
        ParseInspectorError ⟨raw, c, m⟩ =
          ⟨.kUnknownError, "unhandled inspector error: " ++ raw⟩
        ∧ (ParseInspectorError ⟨raw, c, m⟩).message =
          "unknown error: unhandled inspector error: " ++ raw)
    ∧ (ParseInspectorError ⟨"J1", none, some "Cannot navigate to invalid URL"⟩).code =
        .kInvalidArgument
    ∧ (ParseInspectorError ⟨"J2", some (-32602), some "Error description"⟩).message =
        "invalid argument: Error description"
    ∧ (ParseInspectorError ⟨"J3", some (-32602), some "No target with given id found"⟩).message =
        "no such window: No target with given id found"
    ∧ (ParseInspectorError ⟨"RAW4", some 10, some "Error description"⟩).message =
        "unknown error: unhandled inspector error: RAW4"
    ∧ (ParseInspectorError ⟨"J5", some (-32601), some "SOME MESSAGE"⟩).message =
        "unknown command: SOME MESSAGE"
    ∧ (ParseInspectorError ⟨"J6", some (-32000),
        some "Frame with the given id was not found."⟩).message =
        "no such frame: Frame with the given id was not found."
    ∧ (ParseInspectorError ⟨"J7", some (-32001), some "SOME MESSAGE"⟩).message =
        "no such frame: SOME MESSAGE" := by
  refine ⟨?_, ?_, ?_, ?_, ?_, ?_, ?_, ?_, by decide, by decide, by decide, by decide,
    by decide, by decide, by decide⟩
  · intro c m
    constructor
    · simp [ParseInspectorError]
    · simp [ParseInspectorError, Status.message, StatusCode.phrase]
  · intro raw c m hraw hurl
    simp [ParseInspectorError, hraw, hurl]
  · intro raw c m hraw hurl hframe
    simp [ParseInspectorError, hraw, hurl, hframe]
  · intro raw m hraw hurl hframe hne
    refine ⟨by simp [ParseInspectorError, hraw, hurl, hframe, hne], fun hm => ?_⟩
    simp [ParseInspectorError, hraw, hurl, hframe, hne, Status.message, hm, StatusCode.phrase]
  · intro raw hraw
    simp [ParseInspectorError, hraw]
    decide
  · intro raw m hraw hurl hframe
    refine ⟨by simp [ParseInspectorError, hraw, hurl, hframe], fun hm => ?_⟩
    simp [ParseInspectorError, hraw, hurl, hframe, Status.message, hm, StatusCode.phrase]
  · intro raw m hraw hurl hframe
    refine ⟨by simp [ParseInspectorError, hraw, hurl, hframe], fun hm => ?_⟩
    simp [ParseInspectorError, hraw, hurl, hframe, Status.message, hm, StatusCode.phrase]
  · intro raw c m hraw hurl hframe hcode
    have hne := strAppend_ne_empty "unhandled inspector error: " raw (by decide)
    cases c with
    | none =>
        refine ⟨by simp [ParseInspectorError, hraw, hurl, hframe], ?_⟩
        simp [ParseInspectorError, hraw, hurl, hframe, Status.message, StatusCode.phrase,
          hne, unhandled_message_fold]
    | some cv =>
        obtain ⟨h1, h2, h3⟩ := hcode cv rfl
        refine ⟨by simp [ParseInspectorError, hraw, hurl, hframe, h1, h2, h3], ?_⟩
        simp [ParseInspectorError, hraw, hurl, hframe, h1, h2, h3, Status.message,
          StatusCode.phrase, hne, unhandled_message_fold]

/-! ## MessageCodec: ParseInspectorMessage (spec sections 4.1 and 6)

Also declared in the embedded `devtools_client_impl.h`; the
implementation is missing from the snapshot, so the parse is modelled
from the spec and the unit tests at lines 807-907 of
devtools_client_impl_unittest.cc. -/

/-- A parsed inbound message: a method-bearing event or an id-bearing
command response (`internal::InspectorEvent` /
`internal::InspectorCommandResponse`). A response carries either a
decoded error value or a result dictionary. -/
inductive InspectorMessage where
  | event (method : String) (params : JDict) (sessionId : String)
  | commandResponse (id : Int) (result : Option JDict) (error : Option JVal)
      (sessionId : String)
  deriving DecidableEq

/-- Modelled from the spec: `internal::ParseInspectorMessage` (declared
in the `devtools_client_impl.h` text embedded in
src/chrome/page_tracker.cc:332; implementation missing). Input `none`
stands for unparseable text. A dictionary with a string `method` is an
event (missing `params` becomes an empty dictionary); otherwise one
with an integer `id` is a command response whose `error` value, when
present, displaces the result, and whose missing `result` (with no
`error`) becomes the implicit empty result dictionary; anything else is
a hard parse failure. The session id is the `sessionId` string, empty
when absent. -/
def ParseInspectorMessage (m : Option JDict) : Option InspectorMessage :=
  match m with
  | none => none
  | some d =>
    let sessionId := (d.findString "sessionId").getD ""
    match d.findString "method" with
    | some method => some (.event method ((d.findDict "params").getD []) sessionId)
    | none =>
      match d.findInt "id" with
      | none => none
      | some id =>
        match d.findKey "error" with
        | some e => some (.commandResponse id none (some e) sessionId)
        | none => some (.commandResponse id (some ((d.findDict "result").getD [])) none sessionId)

/-- C8: every inbound command response containing neither a `result`
field nor an `error` field parses successfully as a successful response
carrying the implicit empty result dictionary — not as an error. The
final conjunct replays ParseInspectorMessage.CommandNoErrorOrResult
(devtools_client_impl_unittest.cc:866-879). -/
theorem c8_implicit_empty_result :
    (∀ (d : JDict) (i : Int), d.findString "method" = none → d.findInt "id" = some i →
      d.findKey "result" = none → d.findKey "error" = none →
      ParseInspectorMessage (some d) =
        some (.commandResponse i (some []) none ((d.findString "sessionId").getD "")))
    ∧ ParseInspectorMessage (some [("id", .vint 1), ("sessionId", .vstr "AB2AF3C")]) =
        some (.commandResponse 1 (some []) none "AB2AF3C") := by
  constructor
  · intro d i hm hid hres herr
    simp [ParseInspectorMessage, hm, hid, herr,
      JDict.findDict_of_findKey_none d "result" hres]
  · decide

/-! ## Dispatcher: pending responses and the receive loop (spec 4.2)

`DevToolsClientImpl`'s dispatcher (SendCommand / ProcessNextMessage) is
missing from the snapshot; only the header (embedded in
src/chrome/page_tracker.cc, declaring `ResponseState`
{kWaiting, kBlocked, kIgnored, kReceived} and the per-id
`response_info_map_`) and the unit tests are. The receive loop is
modelled from spec section 4.2, with one deliberate deviation taken
from the unit tests: on a `Page.javascriptDialogOpening` event the
client issues an internal round-trip command and, once its response
arrives, marks every entry still Waiting as Blocked (the schedule
comment of CorrectlyDeterminesWhichIsBlockedByAlert at
devtools_client_impl_unittest.cc:1443-1459 documents the round trip;
the spec's created-before/after-observation rule does not reproduce
that test, see the C2 theorems). Listener dispatch and transport
failure are not modelled here; events other than the dialog opening are
consumed without effect, and the exhaustion of the queued inbox plays
the role of the deadline (Timeout). -/

/-- `DevToolsClientImpl::ResponseState` (header, embedded in
page_tracker.cc:251-261). -/
inductive ResponseState where
  | kWaiting
  | kBlocked
  | kIgnored
  | kReceived
  deriving DecidableEq

/-- One pending command's bookkeeping (`ResponseInfo`): its state and,
once received, the decoded result. -/
structure ResponseInfo where
  state : ResponseState
  response : Option JDict
  deriving DecidableEq

/-- The per-client dispatcher state: the next command id and the
id-keyed pending map (`next_id_`, `response_info_map_`). -/
structure ClientCore where
  nextId : Nat
  infoMap : List (Nat × ResponseInfo)
  deriving DecidableEq

/-- An inbound message as the receive loop sees it after parsing. -/
inductive InMsg where
  | response (id : Nat) (result : JDict)
  | event (method : String)
  deriving DecidableEq

/-- Lookup in the pending map (first binding wins). -/
def findInfo (m : List (Nat × ResponseInfo)) (id : Nat) : Option ResponseInfo :=
  match m with
  | [] => none
  | (id', e) :: rest => if id' = id then some e else findInfo rest id

/-- Replace the first binding of an id in the pending map. -/
def setInfo (m : List (Nat × ResponseInfo)) (id : Nat) (e : ResponseInfo) :
    List (Nat × ResponseInfo) :=
  match m with
  | [] => []
  | (id', e') :: rest =>
      if id' = id then (id, e) :: rest else (id', e') :: setInfo rest id e

/-- Remove the first binding of an id from the pending map. -/
def removeInfo (m : List (Nat × ResponseInfo)) (id : Nat) :
    List (Nat × ResponseInfo) :=
  match m with
  | [] => []
  | (id', e') :: rest =>
      if id' = id then rest else (id', e') :: removeInfo rest id

/-- Modelled from the spec: storing one command response into its own
pending entry — a Waiting entry becomes Received with the decoded
result, an Ignored entry is discarded silently, a response for an
unknown or already-settled id is dropped. -/
def storeIntoMap (m : List (Nat × ResponseInfo)) (rid : Nat) (r : JDict) :
    List (Nat × ResponseInfo) :=
  match findInfo m rid with
  | some e =>
    match e.state with
    | .kWaiting => setInfo m rid ⟨.kReceived, some r⟩
    | .kIgnored => removeInfo m rid
    | _ => m
  | none => m

/-- The same storing step at the client level. -/
def storeResponse (core : ClientCore) (rid : Nat) (r : JDict) : ClientCore :=
  {core with infoMap := storeIntoMap core.infoMap rid r}

/-- Mark every entry still Waiting as Blocked (the alert round trip's
conclusion). -/
def markWaitingBlocked (core : ClientCore) : ClientCore :=
  let mark := fun (p : Nat × ResponseInfo) =>
    if p.2.state = .kWaiting then (p.1, (⟨.kBlocked, p.2.response⟩ : ResponseInfo)) else p
  {core with infoMap := core.infoMap.map mark}

/-- Register a fresh pending entry: allocate `id = next-id++` and map it
to Waiting (the registration step of `SendCommandInternal`). -/
def registerCommand (core : ClientCore) : Nat × ClientCore :=
  (core.nextId, ⟨core.nextId + 1, (core.nextId, ⟨.kWaiting, none⟩) :: core.infoMap⟩)

/-- How a receive loop returns to its caller. -/
inductive LoopResult where
  | ok (result : JDict)
  | unexpectedAlertOpen
  | timeout
  deriving DecidableEq

/-- The CDP dialog-opening event method. -/
def dialogEventMethod : String := "Page.javascriptDialogOpening"

/-- The own-entry check at the head of each loop iteration: a Received
entry resolves the call with its stored result (and is destroyed), a
Blocked entry surfaces UnexpectedAlertOpen, an absent entry ends the
loop (modelled as Timeout; the loop is only ever entered for a
registered id), and a Waiting or Ignored entry keeps the loop pulling
messages (`none`). -/
def resolveOwn (expectedId : Nat) (core : ClientCore) (inbox : List InMsg) :
    Option (LoopResult × ClientCore × List InMsg) :=
  match findInfo core.infoMap expectedId with
  | none => some (.timeout, core, inbox)
  | some e =>
    match e.state with
    | .kReceived =>
        some (.ok (e.response.getD []),
          {core with infoMap := removeInfo core.infoMap expectedId}, inbox)
    | .kBlocked => some (.unexpectedAlertOpen, core, inbox)
    | _ => none


/-- Modelled from the spec: the blocking receive loop of
`SendCommandInternal` / `ProcessNextMessage` for one expected id.
Checks the own entry first (Received resolves with its stored result
and destroys the entry; Blocked surfaces UnexpectedAlertOpen), then
pulls the next inbound message: a response is stored into its own id's
entry — without unblocking the current call — and the loop continues; a
dialog-opening event triggers the internal round-trip command (fresh
id, nested loop on the remaining inbox) after which every entry still
Waiting is marked Blocked; other events are consumed (listener dispatch
is outside this model). An exhausted inbox is the expired deadline. The
fuel bounds the total number of steps; every theorem instantiates it
generously enough that it never runs out. -/
def receiveLoop : Nat → Nat → ClientCore → List InMsg →
    LoopResult × ClientCore × List InMsg
  | 0, expectedId, core, inbox =>
      (resolveOwn expectedId core inbox).getD (.timeout, core, inbox)
  | fuel + 1, expectedId, core, inbox =>
    match resolveOwn expectedId core inbox with
    | some out => out
    | none =>
      match inbox with
      | [] => (.timeout, core, inbox)
      | m :: rest =>
        match m with
        | .response rid r => receiveLoop fuel expectedId (storeResponse core rid r) rest
        | .event method =>
          if method = dialogEventMethod then
            match registerCommand core with
            | (roundTripId, core1) =>
              match receiveLoop fuel roundTripId core1 rest with
              | (_, core2, rest') =>
                  receiveLoop fuel expectedId (markWaitingBlocked core2) rest'
          else receiveLoop fuel expectedId core rest

/-- Modelled from the spec: `SendCommand` — allocate the id, register
the Waiting entry, write the command (writes always succeed in this
model; transport loss is treated separately) and run the receive loop
on the pending inbox. -/
def SendCommand (fuel : Nat) (core : ClientCore) (inbox : List InMsg) :
    Nat × LoopResult × ClientCore × List InMsg :=
  match registerCommand core with
  | (cid, core1) => (cid, receiveLoop fuel cid core1 inbox)

/-! ### Pending-map and receive-loop step lemmas -/

/-- Setting a present id makes it found with the new entry. -/
theorem findInfo_setInfo_self (m : List (Nat × ResponseInfo)) (id : Nat)
    (e e' : ResponseInfo) (h : findInfo m id = some e') :
    findInfo (setInfo m id e) id = some e := by
  induction m with
  | nil => simp [findInfo] at h
  | cons p rest ih =>
      obtain ⟨id', e''⟩ := p
      by_cases hid : id' = id
      · simp [setInfo, findInfo, hid]
      · simp [setInfo, findInfo, hid] at h ⊢
        exact ih h

/-- Setting one id leaves every other id's binding unchanged. -/
theorem findInfo_setInfo_ne (m : List (Nat × ResponseInfo)) (id id' : Nat)
    (e : ResponseInfo) (h : ¬ id' = id) :
    findInfo (setInfo m id e) id' = findInfo m id' := by
  induction m with
  | nil => simp [setInfo]
  | cons p rest ih =>
      obtain ⟨id'', e''⟩ := p
      by_cases hid : id'' = id
      · subst hid
        simp [setInfo, findInfo, Ne.symm h]
      · simp [setInfo, findInfo, hid, ih]

/-- Removing one id leaves every other id's binding unchanged. -/
theorem findInfo_removeInfo_ne (m : List (Nat × ResponseInfo)) (id id' : Nat)
    (h : ¬ id' = id) :
    findInfo (removeInfo m id) id' = findInfo m id' := by
  induction m with
  | nil => simp [removeInfo]
  | cons p rest ih =>
      obtain ⟨id'', e''⟩ := p
      by_cases hid : id'' = id
      · subst hid
        simp [removeInfo, findInfo, Ne.symm h]
      · simp [removeInfo, findInfo, hid, ih]

/-- Marking still-waiting entries as blocked, seen through lookup. -/
theorem findInfo_markWaitingBlocked (core : ClientCore) (id : Nat) :
    findInfo (markWaitingBlocked core).infoMap id =
      (findInfo core.infoMap id).map
        (fun e => if e.state = .kWaiting then ⟨.kBlocked, e.response⟩ else e) := by
  simp only [markWaitingBlocked]
  induction core.infoMap with
  | nil => simp [findInfo]
  | cons p rest ih =>
      obtain ⟨id', e⟩ := p
      obtain ⟨st, resp⟩ := e
      cases st <;> by_cases hid : id' = id <;> simp [findInfo, hid, ih]

/-- A response for an id whose entry waits is stored as Received. -/
theorem storeResponse_waiting (core : ClientCore) (rid : Nat) (r : JDict)
    (resp : Option JDict) (h : findInfo core.infoMap rid = some ⟨.kWaiting, resp⟩) :
    storeResponse core rid r =
      {core with infoMap := setInfo core.infoMap rid ⟨.kReceived, some r⟩} := by
  simp [storeResponse, storeIntoMap, h]

/-- `resolveOwn` on a Received entry. -/
theorem resolveOwn_received (expectedId : Nat) (core : ClientCore)
    (inbox : List InMsg) (r : JDict)
    (h : findInfo core.infoMap expectedId = some ⟨.kReceived, some r⟩) :
    resolveOwn expectedId core inbox =
      some (.ok r, {core with infoMap := removeInfo core.infoMap expectedId}, inbox) := by
  simp [resolveOwn, h]

/-- `resolveOwn` on a Blocked entry. -/
theorem resolveOwn_blocked (expectedId : Nat) (core : ClientCore)
    (inbox : List InMsg) (resp : Option JDict)
    (h : findInfo core.infoMap expectedId = some ⟨.kBlocked, resp⟩) :
    resolveOwn expectedId core inbox = some (.unexpectedAlertOpen, core, inbox) := by
  simp [resolveOwn, h]

/-- `resolveOwn` on a Waiting entry keeps the loop pulling. -/
theorem resolveOwn_waiting (expectedId : Nat) (core : ClientCore)
    (inbox : List InMsg) (resp : Option JDict)
    (h : findInfo core.infoMap expectedId = some ⟨.kWaiting, resp⟩) :
    resolveOwn expectedId core inbox = none := by
  simp [resolveOwn, h]

/-- The loop resolves immediately once its own entry is Received,
destroying the entry and returning the stored result. -/
theorem receiveLoop_received (fuel expectedId : Nat) (core : ClientCore)
    (inbox : List InMsg) (r : JDict)
    (h : findInfo core.infoMap expectedId = some ⟨.kReceived, some r⟩) :
    receiveLoop fuel expectedId core inbox =
      (.ok r, {core with infoMap := removeInfo core.infoMap expectedId}, inbox) := by
  cases fuel <;> simp [receiveLoop, resolveOwn_received _ _ _ _ h]

/-- The loop surfaces UnexpectedAlertOpen once its own entry is Blocked. -/
theorem receiveLoop_blocked (fuel expectedId : Nat) (core : ClientCore)
    (inbox : List InMsg) (resp : Option JDict)
    (h : findInfo core.infoMap expectedId = some ⟨.kBlocked, resp⟩) :
    receiveLoop fuel expectedId core inbox = (.unexpectedAlertOpen, core, inbox) := by
  cases fuel <;> simp [receiveLoop, resolveOwn_blocked _ _ _ _ h]

/-- While the own entry waits, a pulled response is stored into its own
id's entry and the loop continues — the current call is not unblocked. -/
theorem receiveLoop_pull_response (fuel expectedId rid : Nat) (core : ClientCore)
    (r : JDict) (rest : List InMsg) (resp : Option JDict)
    (h : findInfo core.infoMap expectedId = some ⟨.kWaiting, resp⟩) :
    receiveLoop (fuel + 1) expectedId core (.response rid r :: rest) =
      receiveLoop fuel expectedId (storeResponse core rid r) rest := by
  conv_lhs => rw [receiveLoop]
  rw [resolveOwn_waiting _ _ _ _ h]

/-- While the own entry waits, a non-dialog event is consumed. -/
theorem receiveLoop_pull_other_event (fuel expectedId : Nat) (core : ClientCore)
    (method : String) (rest : List InMsg) (resp : Option JDict)
    (h : findInfo core.infoMap expectedId = some ⟨.kWaiting, resp⟩)
    (hm : ¬ method = dialogEventMethod) :
    receiveLoop (fuel + 1) expectedId core (.event method :: rest) =
      receiveLoop fuel expectedId core rest := by
  conv_lhs => rw [receiveLoop]
  rw [resolveOwn_waiting _ _ _ _ h]
  simp [hm]

/-- While the own entry waits, the dialog-opening event triggers the
round-trip command and, on its completion, the blanket Blocked marking. -/
theorem receiveLoop_pull_dialog (fuel expectedId : Nat) (core : ClientCore)
    (rest : List InMsg) (resp : Option JDict)
    (h : findInfo core.infoMap expectedId = some ⟨.kWaiting, resp⟩) :
    receiveLoop (fuel + 1) expectedId core (.event dialogEventMethod :: rest) =
      (match receiveLoop fuel core.nextId
          ⟨core.nextId + 1, (core.nextId, ⟨.kWaiting, none⟩) :: core.infoMap⟩ rest with
        | (_, core2, rest') =>
            receiveLoop fuel expectedId (markWaitingBlocked core2) rest') := by
  conv_lhs => rw [receiveLoop]
  rw [resolveOwn_waiting _ _ _ _ h]
  simp [registerCommand]

/-- C1: for ids n and n+1 outstanding on the same client, delivering the
response to n+1 first (during the receive loop waiting on n) stores it
into n+1's own pending entry as Received without unblocking the call
waiting on n; that call still resolves with n's own result once n's
message is seen, and the call for n+1 then resolves with n+1's own
result. -/
theorem c1_out_of_order_correlation (fuel fuel2 n : Nat) (r0 r1 : JDict)
    (core : ClientCore) (rest : List InMsg)
    (hn : findInfo core.infoMap n = some ⟨.kWaiting, none⟩)
    (hn1 : findInfo core.infoMap (n + 1) = some ⟨.kWaiting, none⟩) :
    ∃ core2 : ClientCore,
      receiveLoop (fuel + 2) n core (.response (n + 1) r1 :: .response n r0 :: rest) =
        (.ok r0, core2, rest)
      ∧ findInfo core2.infoMap (n + 1) = some ⟨.kReceived, some r1⟩
      ∧ receiveLoop fuel2 (n + 1) core2 rest =
          (.ok r1, {core2 with infoMap := removeInfo core2.infoMap (n + 1)}, rest) := by
  have hne1 : ¬ n = n + 1 := by omega
  have hne2 : ¬ n + 1 = n := by omega
  have hstore1 : storeResponse core (n + 1) r1 =
      {core with infoMap := setInfo core.infoMap (n + 1) ⟨.kReceived, some r1⟩} :=
    storeResponse_waiting core (n + 1) r1 none hn1
  have hA : findInfo (setInfo core.infoMap (n + 1) ⟨.kReceived, some r1⟩) n =
      some ⟨.kWaiting, none⟩ := by
    rw [findInfo_setInfo_ne _ _ _ _ hne1]
    exact hn
  have hB : findInfo (setInfo (setInfo core.infoMap (n + 1) ⟨.kReceived, some r1⟩) n
      ⟨.kReceived, some r0⟩) n = some ⟨.kReceived, some r0⟩ :=
    findInfo_setInfo_self _ _ _ _ hA
  have hC : findInfo (removeInfo (setInfo (setInfo core.infoMap (n + 1)
      ⟨.kReceived, some r1⟩) n ⟨.kReceived, some r0⟩) n) (n + 1) =
      some ⟨.kReceived, some r1⟩ := by
    rw [findInfo_removeInfo_ne _ _ _ hne2, findInfo_setInfo_ne _ _ _ _ hne2,
      findInfo_setInfo_self _ _ _ _ hn1]
  refine ⟨{core with infoMap := removeInfo (setInfo (setInfo core.infoMap (n + 1)
    ⟨.kReceived, some r1⟩) n ⟨.kReceived, some r0⟩) n}, ?_, hC, ?_⟩
  · rw [show fuel + 2 = (fuel + 1) + 1 from rfl,
      receiveLoop_pull_response _ _ _ _ _ _ _ hn, hstore1,
      receiveLoop_pull_response _ _ _ _ _ _ _ hA,
      storeResponse_waiting _ _ _ _ hA,
      receiveLoop_received _ _ _ _ _ hB]
  · exact receiveLoop_received _ _ _ _ _ hC

/-- C1 witness: the out-of-order theorem at ids 5 and 6 with concrete
results, replaying NestedCommandsWithOutOfOrderResults's essential
schedule. -/
theorem c1_out_of_order_correlation_witness :
    ∃ core2 : ClientCore,
      receiveLoop 2 5 ⟨7, [(5, ⟨.kWaiting, none⟩), (6, ⟨.kWaiting, none⟩)]⟩
          [.response 6 [("key", .vint 2)], .response 5 [("key", .vint 3)]] =
        (.ok [("key", .vint 3)], core2, [])
      ∧ findInfo core2.infoMap 6 = some ⟨.kReceived, some [("key", .vint 2)]⟩
      ∧ receiveLoop 2 6 core2 [] =
          (.ok [("key", .vint 2)], {core2 with infoMap := removeInfo core2.infoMap 6}, []) :=
  c1_out_of_order_correlation 0 2 5 [("key", .vint 3)] [("key", .vint 2)]
    ⟨7, [(5, ⟨.kWaiting, none⟩), (6, ⟨.kWaiting, none⟩)]⟩ [] (by decide) (by decide)

/-- C2 counterexample, replaying the repository's own alert tests.
First conjunct (BlockedByAlert, devtools_client_impl_unittest.cc:
1427-1440): the command whose pending entry was created *before* the
dialog-open event was observed resolves as UnexpectedAlertOpen — not
"normally with its own result" as the claim states — because the
internal round-trip command completes without the command's response
having arrived. Second conjunct (the post-alert command of
CorrectlyDeterminesWhichIsBlockedByAlert): continuing from that very
state, a command whose entry is created *after* the observation
resolves Ok with its own result once its response arrives — not as
UnexpectedAlertOpen. -/
theorem c2_counterexample :
    (SendCommand 10 ⟨1, []⟩ [.event dialogEventMethod, .response 2 []]).2.1 =
      .unexpectedAlertOpen
    ∧ (SendCommand 10
        (SendCommand 10 ⟨1, []⟩ [.event dialogEventMethod, .response 2 []]).2.2.1
        [.response 3 [("p", .vint 1)]]).2.1 = .ok [("p", .vint 1)] := by
  decide

/-- C2 (amended): a dialog-open event observed during the receive loop
triggers an internal round-trip command; when the round-trip's response
arrives, every pending entry still Waiting is marked Blocked and its
call resolves as UnexpectedAlertOpen, while an entry whose response was
delivered before the round-trip's response resolves normally with its
own result, and a command issued after the round trip completes again
resolves normally. -/
theorem c2_alert_round_trip (fuel nA : Nat) (rA rT : JDict)
    (core : ClientCore) (rest : List InMsg)
    (hA : findInfo core.infoMap nA = some ⟨.kWaiting, none⟩)
    (hlt : nA < core.nextId)
    (hT1 : findInfo core.infoMap (core.nextId + 1) = none) :
    ∃ core2 : ClientCore,
      receiveLoop (fuel + 3) nA core
          (.event dialogEventMethod :: .response nA rA ::
            .response core.nextId rT :: rest) = (.ok rA, core2, rest)
      ∧ (∀ (m : Nat) (resp : Option JDict), ¬ m = nA → ¬ m = core.nextId →
          findInfo core.infoMap m = some ⟨.kWaiting, resp⟩ →
          findInfo core2.infoMap m = some ⟨.kBlocked, resp⟩
          ∧ ∀ (fuel2 : Nat) (inbox2 : List InMsg),
              receiveLoop fuel2 m core2 inbox2 = (.unexpectedAlertOpen, core2, inbox2))
      ∧ (∀ (fuel3 : Nat) (rB : JDict),
          (SendCommand (fuel3 + 1) core2 [.response core2.nextId rB]).2.1 = .ok rB) := by
  obtain ⟨t, M⟩ := core
  simp only at hA hlt hT1 ⊢
  have hne_t_nA : ¬ t = nA := by omega
  have hne_nA_t1 : ¬ t + 1 = nA := by omega
  -- the nested round-trip loop, message by message
  have hfind_t : findInfo ((t, (⟨.kWaiting, none⟩ : ResponseInfo)) :: M) t =
      some ⟨.kWaiting, none⟩ := by simp [findInfo]
  have hfind_nA1 : findInfo ((t, (⟨.kWaiting, none⟩ : ResponseInfo)) :: M) nA =
      some ⟨.kWaiting, none⟩ := by simp [findInfo, hne_t_nA, hA]
  have hs1 : storeResponse ⟨t + 1, (t, ⟨.kWaiting, none⟩) :: M⟩ nA rA =
      ⟨t + 1, (t, ⟨.kWaiting, none⟩) :: setInfo M nA ⟨.kReceived, some rA⟩⟩ := by
    rw [storeResponse_waiting _ _ _ _ hfind_nA1]
    simp [setInfo, hne_t_nA]
  have hfind_t2 : findInfo ((t, (⟨.kWaiting, none⟩ : ResponseInfo)) ::
      setInfo M nA ⟨.kReceived, some rA⟩) t = some ⟨.kWaiting, none⟩ := by
    simp [findInfo]
  have hs2 : storeResponse ⟨t + 1, (t, ⟨.kWaiting, none⟩) ::
      setInfo M nA ⟨.kReceived, some rA⟩⟩ t rT =
      ⟨t + 1, (t, ⟨.kReceived, some rT⟩) :: setInfo M nA ⟨.kReceived, some rA⟩⟩ := by
    rw [storeResponse_waiting _ _ _ _ hfind_t2]
    simp [setInfo]
  have hnested : receiveLoop (fuel + 2) t ⟨t + 1, (t, ⟨.kWaiting, none⟩) :: M⟩
      (.response nA rA :: .response t rT :: rest) =
      (.ok rT, ⟨t + 1, setInfo M nA ⟨.kReceived, some rA⟩⟩, rest) := by
    rw [show fuel + 2 = (fuel + 1) + 1 from rfl,
      receiveLoop_pull_response _ _ _ _ _ _ _ hfind_t, hs1,
      receiveLoop_pull_response _ _ _ _ _ _ _ hfind_t2, hs2,
      receiveLoop_received _ _ _ _ rT (by simp [findInfo])]
    simp [removeInfo]
  -- the state after the round trip and the blanket marking
  have hmb : ∀ id : Nat,
      findInfo (markWaitingBlocked ⟨t + 1, setInfo M nA ⟨.kReceived, some rA⟩⟩).infoMap id =
        (findInfo (setInfo M nA ⟨.kReceived, some rA⟩) id).map
          (fun e => if e.state = .kWaiting then ⟨.kBlocked, e.response⟩ else e) :=
    fun id => findInfo_markWaitingBlocked _ id
  have hownA : findInfo
      (markWaitingBlocked ⟨t + 1, setInfo M nA ⟨.kReceived, some rA⟩⟩).infoMap nA =
      some ⟨.kReceived, some rA⟩ := by
    rw [hmb nA, findInfo_setInfo_self _ _ _ _ hA]
    simp
  refine ⟨⟨t + 1, removeInfo
      (markWaitingBlocked ⟨t + 1, setInfo M nA ⟨.kReceived, some rA⟩⟩).infoMap nA⟩,
    ?_, ?_, ?_⟩
  · rw [receiveLoop_pull_dialog _ _ _ _ _ hA]
    simp only [hnested]
    rw [receiveLoop_received _ _ _ _ rA hownA]
    simp [markWaitingBlocked]
  · intro m resp hmA hmt hm
    have hfinal : findInfo (removeInfo
        (markWaitingBlocked ⟨t + 1, setInfo M nA ⟨.kReceived, some rA⟩⟩).infoMap nA) m =
        some ⟨.kBlocked, resp⟩ := by
      rw [findInfo_removeInfo_ne _ _ _ hmA, hmb m, findInfo_setInfo_ne _ _ _ _ hmA, hm]
      simp
    exact ⟨hfinal, fun fuel2 inbox2 => receiveLoop_blocked _ _ _ _ _ hfinal⟩
  · intro fuel3 rB
    simp only [SendCommand, registerCommand]
    have hfresh : findInfo ((t + 1, (⟨.kWaiting, none⟩ : ResponseInfo)) :: removeInfo
        (markWaitingBlocked ⟨t + 1, setInfo M nA ⟨.kReceived, some rA⟩⟩).infoMap nA)
        (t + 1) = some ⟨.kWaiting, none⟩ := by simp [findInfo]
    rw [receiveLoop_pull_response _ _ _ _ _ _ _ hfresh,
      storeResponse_waiting _ _ _ _ hfresh]
    have hrecv : findInfo (setInfo ((t + 1, (⟨.kWaiting, none⟩ : ResponseInfo)) :: removeInfo
        (markWaitingBlocked ⟨t + 1, setInfo M nA ⟨.kReceived, some rA⟩⟩).infoMap nA)
        (t + 1) ⟨.kReceived, some rB⟩) (t + 1) = some ⟨.kReceived, some rB⟩ := by
      simp [setInfo, findInfo]
    rw [receiveLoop_received _ _ _ _ _ hrecv]

/-- C2 witness: the amended round-trip theorem at the concrete schedule
of CorrectlyDeterminesWhichIsBlockedByAlert — entry 1 answered before
the round trip (id 3) resolves Ok, entry 2 still waiting gets blocked,
and a command issued afterwards (id 4) resolves Ok. -/
theorem c2_alert_round_trip_witness :
    ∃ core2 : ClientCore,
      receiveLoop 3 1 ⟨3, [(1, ⟨.kWaiting, none⟩), (2, ⟨.kWaiting, none⟩)]⟩
          (.event dialogEventMethod :: .response 1 [("a", .vint 7)] ::
            .response 3 [] :: []) = (.ok [("a", .vint 7)], core2, [])
      ∧ (∀ (m : Nat) (resp : Option JDict), ¬ m = 1 → ¬ m = 3 →
          findInfo [(1, ⟨.kWaiting, none⟩), (2, ⟨.kWaiting, none⟩)] m =
            some ⟨.kWaiting, resp⟩ →
          findInfo core2.infoMap m = some ⟨.kBlocked, resp⟩
          ∧ ∀ (fuel2 : Nat) (inbox2 : List InMsg),
              receiveLoop fuel2 m core2 inbox2 = (.unexpectedAlertOpen, core2, inbox2))
      ∧ (∀ (fuel3 : Nat) (rB : JDict),
          (SendCommand (fuel3 + 1) core2 [.response core2.nextId rB]).2.1 = .ok rB) :=
  c2_alert_round_trip 0 1 [("a", .vint 7)] []
    ⟨3, [(1, ⟨.kWaiting, none⟩), (2, ⟨.kWaiting, none⟩)]⟩ []
    (by decide) (by decide) (by decide)

/-! ## SessionMultiplexer: inbound routing at the root (spec 4.4)

`DevToolsClientImpl` demultiplexes inbound messages by session id over
the flat `children_` map (header comment, page_tracker.cc:304-308); the
implementation is missing from the snapshot, so routing is modelled
from spec section 4.4 and validated against RoutingChildParent /
RoutingTwoChildren (devtools_client_impl_unittest.cc:1903-1949). The
hierarchy is depth one by construction: a child is just its own pending
map, so the routed state can only be the root's own map or one direct
child's. -/

/-- The root client's view of the flat session hierarchy: its own
session id and pending map, and one pending map per attached child,
keyed by the child's session id. -/
structure RootState where
  sessionId : String
  rootMap : List (Nat × ResponseInfo)
  children : List (String × List (Nat × ResponseInfo))
  deriving DecidableEq

/-- Lookup of a child by session id (first binding wins). -/
def findChild (cs : List (String × List (Nat × ResponseInfo))) (sid : String) :
    Option (List (Nat × ResponseInfo)) :=
  match cs with
  | [] => none
  | (sid', m) :: rest => if sid' = sid then some m else findChild rest sid

/-- Replace one child's pending map. -/
def setChild (cs : List (String × List (Nat × ResponseInfo))) (sid : String)
    (m : List (Nat × ResponseInfo)) : List (String × List (Nat × ResponseInfo)) :=
  match cs with
  | [] => []
  | (sid', m') :: rest =>
      if sid' = sid then (sid, m) :: rest else (sid', m') :: setChild rest sid m

/-- Where one inbound message goes: the root itself or one direct child. -/
inductive RouteTarget where
  | root
  | child (sessionId : String)
  deriving DecidableEq

/-- Modelled from the spec: the session id of every parsed message is
matched against the child map; a matching id routes to that child, and
an empty or non-matching (in particular the root's own) id routes to
the root itself — never descending more than one level. -/
def route (rs : RootState) (sid : String) : RouteTarget :=
  match findChild rs.children sid with
  | some _ => .child sid
  | none => .root

/-- Modelled from the spec: dispatching one inbound command response at
the root — route by session id, then store the response into the routed
client's own pending map. -/
def dispatchResponse (rs : RootState) (sid : String) (rid : Nat) (r : JDict) :
    RootState :=
  match route rs sid with
  | .child s =>
    match findChild rs.children s with
    | some m => {rs with children := setChild rs.children s (storeIntoMap m rid r)}
    | none => rs
  | .root => {rs with rootMap := storeIntoMap rs.rootMap rid r}

/-! ### Child-map lemmas -/

/-- Setting a present child re-finds the new map. -/
theorem findChild_setChild_self (cs : List (String × List (Nat × ResponseInfo)))
    (sid : String) (m m' : List (Nat × ResponseInfo))
    (h : findChild cs sid = some m') :
    findChild (setChild cs sid m) sid = some m := by
  induction cs with
  | nil => simp [findChild] at h
  | cons p rest ih =>
      obtain ⟨sid', m''⟩ := p
      by_cases hs : sid' = sid
      · simp [setChild, findChild, hs]
      · simp [setChild, findChild, hs] at h ⊢
        exact ih h

/-- Setting one child leaves every other child's map unchanged. -/
theorem findChild_setChild_ne (cs : List (String × List (Nat × ResponseInfo)))
    (sid sid' : String) (m : List (Nat × ResponseInfo)) (h : ¬ sid' = sid) :
    findChild (setChild cs sid m) sid' = findChild cs sid' := by
  induction cs with
  | nil => simp [setChild]
  | cons p rest ih =>
      obtain ⟨sid'', m''⟩ := p
      by_cases hs : sid'' = sid
      · subst hs
        simp [setChild, findChild, Ne.symm h]
      · simp [setChild, findChild, hs, ih]

/-- Storing a response into a map whose entry for the id waits. -/
theorem storeIntoMap_waiting (m : List (Nat × ResponseInfo)) (rid : Nat)
    (r : JDict) (resp : Option JDict)
    (h : findInfo m rid = some ⟨.kWaiting, resp⟩) :
    storeIntoMap m rid r = setInfo m rid ⟨.kReceived, some r⟩ := by
  simp [storeIntoMap, h]

/-- C4: with two children attached to the same root, an inbound response
tagged with one child's session id resolves exactly that child's pending
entry: the other child's map — even holding an entry with the same
numeric command id — and the root's own map are untouched. A message
whose session id is empty, or equals the root's own session id, routes
to the root itself (neither is a key of the child map), and routing
never descends more than one level: the target is always the root or a
direct child of the root. -/
theorem c4_session_routing :
    (∀ (rs : RootState) (s1 s2 : String) (P1 P2 : List (Nat × ResponseInfo))
      (rid : Nat) (r : JDict) (resp1 : Option JDict), ¬ s2 = s1 →
      findChild rs.children s1 = some P1 →
      findChild rs.children s2 = some P2 →
      findInfo P1 rid = some ⟨.kWaiting, resp1⟩ →
      route rs s1 = .child s1
      ∧ findChild (dispatchResponse rs s1 rid r).children s1 =
          some (setInfo P1 rid ⟨.kReceived, some r⟩)
      ∧ findInfo (setInfo P1 rid ⟨.kReceived, some r⟩) rid = some ⟨.kReceived, some r⟩
      ∧ findChild (dispatchResponse rs s1 rid r).children s2 = some P2
      ∧ (dispatchResponse rs s1 rid r).rootMap = rs.rootMap)
    ∧ (∀ (rs : RootState) (rid : Nat) (r : JDict),
      findChild rs.children "" = none →
      route rs "" = .root
      ∧ dispatchResponse rs "" rid r = {rs with rootMap := storeIntoMap rs.rootMap rid r})
    ∧ (∀ (rs : RootState) (rid : Nat) (r : JDict),
      findChild rs.children rs.sessionId = none →
      route rs rs.sessionId = .root
      ∧ dispatchResponse rs rs.sessionId rid r =
          {rs with rootMap := storeIntoMap rs.rootMap rid r})
    ∧ (∀ (rs : RootState) (sid : String),
      route rs sid = .root
      ∨ ∃ P, findChild rs.children sid = some P ∧ route rs sid = .child sid) := by
  refine ⟨?_, ?_, ?_, ?_⟩
  · intro rs s1 s2 P1 P2 rid r resp1 hne h1 h2 hw
    have hroute : route rs s1 = .child s1 := by simp [route, h1]
    have hdisp : dispatchResponse rs s1 rid r =
        {rs with children := setChild rs.children s1 (storeIntoMap P1 rid r)} := by
      simp [dispatchResponse, hroute, h1]
    refine ⟨hroute, ?_, findInfo_setInfo_self _ _ _ _ hw, ?_, ?_⟩
    · rw [hdisp]
      show findChild (setChild rs.children s1 (storeIntoMap P1 rid r)) s1 = _
      rw [findChild_setChild_self _ _ _ _ h1, storeIntoMap_waiting _ _ _ _ hw]
    · rw [hdisp]
      show findChild (setChild rs.children s1 (storeIntoMap P1 rid r)) s2 = _
      rw [findChild_setChild_ne _ _ _ _ hne]
      exact h2
    · rw [hdisp]
  · intro rs rid r h
    have hroute : route rs "" = .root := by simp [route, h]
    exact ⟨hroute, by simp [dispatchResponse, hroute]⟩
  · intro rs rid r h
    have hroute : route rs rs.sessionId = .root := by simp [route, h]
    exact ⟨hroute, by simp [dispatchResponse, hroute]⟩
  · intro rs sid
    cases hc : findChild rs.children sid with
    | none => exact Or.inl (by simp [route, hc])
    | some P =>
        refine Or.inr ⟨P, rfl, ?_⟩
        simp [route, hc]

/-! ## SessionMultiplexer: AttachTo and the depth-one invariant (spec 4.4)

The header embedded in src/chrome/page_tracker.cc states the class
invariant "parent == nullptr || children.empty()" (lines 147-149) and
AttachTo's contract (lines 182-192): precondition `parent != nullptr`,
`IsNull()`, `parent->GetParentClient() == nullptr`; postcondition
`result.IsError() || !IsNull()`. `AttachTo`'s implementation is missing
from the snapshot, so the client life cycle is modelled from the spec:
clients are created by the two constructors (transport-bearing, not
null; or null) and attached to an already-usable (non-null) client —
spec section 3's lifecycle — whose own parent is null. The world is the
arena of all clients ever created, keyed by distinct handles. -/

/-- One client's hierarchy-relevant fields: its arena handle, session
id, null state (no transport and no parent), optional parent handle and
child map (session id to handle). -/
structure ClientRec where
  key : Nat
  sessionId : String
  isNull : Bool
  parent : Option Nat
  children : List (String × Nat)
  deriving DecidableEq

/-- The arena of clients. -/
abbrev ClientWorld := List ClientRec

/-- The update `AttachTo` performs on the arena: the target `c` gains
parent `p` and stops being null; the parent `p` registers the target
under its session id `sid` in its child map. -/
def attachUpdate (w : ClientWorld) (c p : Nat) (sid : String) : ClientWorld :=
  w.map (fun r =>
    if r.key = c then {r with isNull := false, parent := some p}
    else if r.key = p then {r with children := (sid, c) :: r.children}
    else r)

/-- Modelled from the spec: one step of the client life cycle.
`newClient` covers both constructors (page_tracker.cc:154-165): a fresh
handle, no parent, no children; the transport-bearing constructor makes
a non-null client, the other a null one. `attach` is
`AttachTo(parent)` with its preconditions: the target exists and is
currently null, the parent exists, is usable (non-null, spec section
3's "attaching to an already-usable client") and itself has no parent
(page_tracker.cc:187-190); the preconditions are phrased over every
record carrying the handle, which is unambiguous because handles are
created distinct. -/
inductive ClientStep : ClientWorld → ClientWorld → Prop where
  | newClient (w : ClientWorld) (k : Nat) (sid : String) (isnull : Bool)
      (hfresh : ∀ r ∈ w, ¬ r.key = k) :
      ClientStep w (⟨k, sid, isnull, none, []⟩ :: w)
  | attach (w : ClientWorld) (c p : Nat) (sid : String)
      (hcp : ¬ c = p)
      (hc : ∀ r ∈ w, r.key = c → r.isNull = true ∧ r.sessionId = sid)
      (hp : ∀ r ∈ w, r.key = p → r.parent = none ∧ r.isNull = false)
      (hcex : ∃ r ∈ w, r.key = c) (hpex : ∃ r ∈ w, r.key = p) :
      ClientStep w (attachUpdate w c p sid)

/-- The worlds reachable from the empty arena. -/
def ClientReachable (w : ClientWorld) : Prop :=
  Relation.ReflTransGen ClientStep [] w

/-- The strengthened inductive invariant: null clients are fully
detached, and a client with children has no parent. -/
def HierarchyInv (w : ClientWorld) : Prop :=
  ∀ r ∈ w, (r.isNull = true → r.parent = none ∧ r.children = [])
    ∧ (¬ r.children = [] → r.parent = none)

/-- A single step preserves the strengthened invariant. -/
theorem hierarchyInv_step (w w' : ClientWorld) (hw : HierarchyInv w)
    (hs : ClientStep w w') : HierarchyInv w' := by
  cases hs with
  | newClient k sid isnull hfresh =>
      intro r hr
      rw [List.mem_cons] at hr
      rcases hr with hr | hr
      · subst hr
        exact ⟨fun _ => ⟨rfl, rfl⟩, fun hch => absurd rfl hch⟩
      · exact hw r hr
  | attach c p sid hcp hc hp hcex hpex =>
      intro r hr
      rw [attachUpdate, List.mem_map] at hr
      obtain ⟨r0, hr0, hmap⟩ := hr
      by_cases hkc : r0.key = c
      · rw [if_pos hkc] at hmap
        obtain ⟨hnull0, _⟩ := hc r0 hr0 hkc
        have hch0 : r0.children = [] := ((hw r0 hr0).1 hnull0).2
        subst hmap
        refine ⟨fun hfalse => by simp at hfalse, fun hch => ?_⟩
        exact absurd hch0 (by simpa using hch)
      · rw [if_neg hkc] at hmap
        by_cases hkp : r0.key = p
        · rw [if_pos hkp] at hmap
          obtain ⟨hpar0, hnn0⟩ := hp r0 hr0 hkp
          subst hmap
          refine ⟨fun hnull => absurd hnn0 (by simp [hnull] at hnull ⊢; simp [hnull]), ?_⟩
          intro _
          exact hpar0
        · rw [if_neg hkp] at hmap
          subst hmap
          exact hw r0 hr0

/-- C5: every reachable client world satisfies the depth-one hierarchy
invariant — a client with a non-null parent has no children, and a
client with children has no parent (header invariant,
page_tracker.cc:147-149). An attach step is only possible when the
target is currently null and the parent itself has no parent, and on
success the target is registered under its session id in the parent's
child map and is no longer null. The last conjunct exhibits a reachable
two-client world built by an attach. -/
theorem c5_hierarchy_invariant :
    (∀ w : ClientWorld, ClientReachable w → ∀ r ∈ w,
      (r.parent.isSome → r.children = []) ∧ (¬ r.children = [] → r.parent = none))
    ∧ (∀ w w' : ClientWorld, ClientStep w w' →
        (∃ k sid isnull, w' = ⟨k, sid, isnull, none, []⟩ :: w)
        ∨ (∃ c p sid, w' = attachUpdate w c p sid
            ∧ (∀ r ∈ w, r.key = c → r.isNull = true)
            ∧ (∀ r ∈ w, r.key = p → r.parent = none)))
    ∧ (∀ (w : ClientWorld) (c p : Nat) (sid : String), ¬ c = p →
        ∀ r ∈ attachUpdate w c p sid,
          (r.key = c → r.isNull = false ∧ r.parent = some p)
          ∧ (r.key = p → (sid, c) ∈ r.children))
    ∧ ClientReachable
        (attachUpdate [⟨1, "s", true, none, []⟩, ⟨0, "", false, none, []⟩] 1 0 "s") := by
  refine ⟨?_, ?_, ?_, ?_⟩
  · intro w hreach
    have hinv : HierarchyInv w := by
      induction hreach with
      | refl => intro r hr; simp at hr
      | tail hsteps hstep ih => exact hierarchyInv_step _ _ ih hstep
    intro r hr
    refine ⟨?_, (hinv r hr).2⟩
    intro hps
    by_contra hch
    have := (hinv r hr).2 hch
    rw [this] at hps
    simp at hps
  · intro w w' hs
    cases hs with
    | newClient k sid isnull hfresh => exact Or.inl ⟨k, sid, isnull, rfl⟩
    | attach c p sid hcp hc hp hcex hpex =>
        exact Or.inr ⟨c, p, sid, rfl, fun r hr hk => (hc r hr hk).1,
          fun r hr hk => (hp r hr hk).1⟩
  · intro w c p sid hcp r hr
    rw [attachUpdate, List.mem_map] at hr
    obtain ⟨r0, hr0, hmap⟩ := hr
    by_cases hkc : r0.key = c
    · rw [if_pos hkc] at hmap
      subst hmap
      refine ⟨fun _ => ⟨rfl, rfl⟩, fun hk => ?_⟩
      exact absurd (hkc ▸ hk) hcp
    · rw [if_neg hkc] at hmap
      by_cases hkp : r0.key = p
      · rw [if_pos hkp] at hmap
        subst hmap
        exact ⟨fun hk => absurd hk hkc, fun _ => List.mem_cons_self _ _⟩
      · rw [if_neg hkp] at hmap
        subst hmap
        exact ⟨fun hk => absurd hk hkc, fun hk => absurd hk hkp⟩
  · have s1 : ClientStep [] [⟨0, "", false, none, []⟩] :=
      ClientStep.newClient [] 0 "" false (by simp)
    have s2 : ClientStep [⟨0, "", false, none, []⟩]
        [⟨1, "s", true, none, []⟩, ⟨0, "", false, none, []⟩] :=
      ClientStep.newClient _ 1 "s" true (by decide)
    have s3 : ClientStep [⟨1, "s", true, none, []⟩, ⟨0, "", false, none, []⟩]
        (attachUpdate [⟨1, "s", true, none, []⟩, ⟨0, "", false, none, []⟩] 1 0 "s") :=
      ClientStep.attach _ 1 0 "s" (by decide) (by decide) (by decide)
        ⟨⟨1, "s", true, none, []⟩, by decide⟩ ⟨⟨0, "", false, none, []⟩, by decide⟩
    exact ((Relation.ReflTransGen.refl.tail s1).tail s2).tail s3

/-! ## The frontend-closer callback on reconnect (spec sections 6 and 7)

`ConnectIfNecessary` and the `frontend_closer_func_` invocation are in
the missing implementation file; modelled from spec sections 6/7 and
the Reconnect unit test (devtools_client_impl_unittest.cc:1333-1355).
The machine tracks whether the transport is connected, whether a
transport loss has been detected since the last successful connect, and
how many times the frontend-closer callback has run. -/

/-- Connection-tracking state of one root client. -/
structure ConnState where
  connected : Bool
  lossDetected : Bool
  closerCalls : Nat
  deriving DecidableEq

/-- The state of a freshly constructed client: never connected, no loss
detected, closer never called. -/
def ConnState.init : ConnState := ⟨false, false, 0⟩

/-- The operations the Reconnect scenario exercises:
`connectAttempt ok` is one `ConnectIfNecessary` call whose underlying
transport connect succeeds iff `ok`; `transportIo ok` is one
send-or-receive interaction (`SendCommand` / `HandleReceivedEvents`)
whose transport write/read succeeds iff `ok`. -/
inductive ConnOp where
  | connectAttempt (ok : Bool)
  | transportIo (ok : Bool)
  deriving DecidableEq

/-- Modelled from the spec: one step of the connection machine.
`ConnectIfNecessary` is a no-op when already connected; a failed
connect changes nothing (and never runs the closer); a successful
connect runs the frontend closer exactly when a transport loss had been
detected, then clears the loss flag. A send or receive that fails marks
the client disconnected with the loss detected and surfaces
Disconnected; one attempted while disconnected also returns
Disconnected without touching the closer. -/
def connStep (st : ConnState) (op : ConnOp) : ConnState :=
  match op with
  | .connectAttempt ok =>
    if st.connected then st
    else if ok then
      ⟨true, false, st.closerCalls + (if st.lossDetected then 1 else 0)⟩
    else st
  | .transportIo ok =>
    if st.connected then
      if ok then st else ⟨false, true, st.closerCalls⟩
    else st

/-- Running a whole operation sequence. -/
def connRun (st : ConnState) : List ConnOp → ConnState
  | [] => st
  | op :: ops => connRun (connStep st op) ops

/-- Does this operation, taken in this state, fire the frontend closer?
Exactly a successful `ConnectIfNecessary` on a disconnected client with
a detected transport loss. -/
def closerFires (st : ConnState) (op : ConnOp) : Bool :=
  op = .connectAttempt true && !st.connected && st.lossDetected

/-- How often the frontend closer fires along an operation sequence. -/
def closerFireCount (st : ConnState) : List ConnOp → Nat
  | [] => 0
  | op :: ops => (if closerFires st op then 1 else 0) + closerFireCount (connStep st op) ops

/-- C6: the frontend closer runs exactly as many times as there are
successful `ConnectIfNecessary` calls made while disconnected with a
detected transport loss — and such a call is the only thing that fires
it: never a failed connect attempt, never a send or receive (in
particular not one returning Disconnected), never the initial
successful connect (no loss detected yet), and never a later command
after the reconnect completes; the firing connect clears the loss flag,
so only the *first* successful reconnect after a loss fires. The final
conjuncts replay the Reconnect unit test's schedule: connect, a failed
send, a failed receive, the reconnect (the one firing), a successful
send. -/
theorem c6_frontend_closer_once :
    (∀ (st : ConnState) (ops : List ConnOp),
      (connRun st ops).closerCalls = st.closerCalls + closerFireCount st ops)
    ∧ (∀ (st : ConnState) (op : ConnOp),
      closerFires st op = true ↔
        op = .connectAttempt true ∧ st.connected = false ∧ st.lossDetected = true)
    ∧ (∀ st : ConnState, closerFires st (.connectAttempt false) = false)
    ∧ (∀ (st : ConnState) (ok : Bool), closerFires st (.transportIo ok) = false)
    ∧ closerFires ConnState.init (.connectAttempt true) = false
    ∧ (∀ st : ConnState, st.connected = false → st.lossDetected = true →
        connStep st (.connectAttempt true) = ⟨true, false, st.closerCalls + 1⟩)
    ∧ closerFireCount ConnState.init
        [.connectAttempt true, .transportIo false, .transportIo false,
          .connectAttempt true, .transportIo true] = 1
    ∧ (connRun ConnState.init
        [.connectAttempt true, .transportIo false, .transportIo false,
          .connectAttempt true, .transportIo true]).closerCalls = 1
    ∧ closerFireCount ConnState.init
        [.connectAttempt true, .transportIo false, .transportIo false] = 0 := by
  refine ⟨?_, ?_, ?_, ?_, by decide, ?_, by decide, by decide, by decide⟩
  · intro st ops
    induction ops generalizing st with
    | nil => simp [connRun, closerFireCount]
    | cons op rest ih =>
        rw [connRun, closerFireCount, ih]
        have hstep : (connStep st op).closerCalls =
            st.closerCalls + (if closerFires st op then 1 else 0) := by
          obtain ⟨c, l, n⟩ := st
          cases op with
          | connectAttempt ok => cases ok <;> cases c <;> cases l <;>
              simp [connStep, closerFires]
          | transportIo ok => cases ok <;> cases c <;> cases l <;>
              simp [connStep, closerFires]
        rw [hstep]
        omega
  · intro st op
    obtain ⟨c, l, n⟩ := st
    cases op with
    | connectAttempt ok => cases ok <;> cases c <;> cases l <;> simp [closerFires]
    | transportIo ok => cases ok <;> cases c <;> cases l <;> simp [closerFires]
  · intro st
    simp [closerFires]
  · intro st ok
    simp [closerFires]
  · intro st hc hl
    obtain ⟨c, l, n⟩ := st
    simp at hc hl
    subst hc
    subst hl
    simp [connStep]

/-! ## BiDiBridge: SendBidiCommand (spec 4.5)

`WebViewImpl::SendBidiCommand` is missing from the snapshot; only its
unit tests are (embedded in devtools_client_impl_unittest.cc,
SendBidiCommandTest/SendBidiCommandBadChannelTest at lines 3750-3954).
The tests show the channel precondition to be "a non-empty string
starting with '/'" (the error message names a "non-empty string
'goog:channel'"; "/test" — ending in no reserved suffix — succeeds,
while missing, "" and "no-leading-slash" fail), so the model follows
the tests there and the spec everywhere else. Waiting for the matching
response is modelled over the list of BiDi payloads delivered while the
call's listener is registered; list exhaustion is the expired deadline. -/

/-- Does `t` end with `s`, over the characters of the strings. -/
def strEndsWith (t s : String) : Bool :=
  s.data.reverse.isPrefixOf t.data.reverse

/-- Modelled from the spec: `DevToolsClientImpl::kBidiChannelSuffix`,
one of the two reserved channel-name suffixes (spec section 6); its
value is not in the snapshot and is modelled after the reserved
`Session::kChannelSuffix` "/chan" of session.cc:113. -/
def kBidiChannelSuffix : String := "/chan"

/-- Modelled from the spec: `DevToolsClientImpl::kCdpTunnelChannel`,
the reserved channel of CDP-over-BiDi traffic (spec sections 4.5/6);
its value is not in the snapshot and is modelled as "/cdp". -/
def kCdpTunnelChannel : String := "/cdp"

/-- Modelled from the spec and the unit tests:
`WebViewImpl::SendBidiCommand(command, timeout, &response)`. A command
without an `id` value, or without a `goog:channel` string that is
non-empty and starts with '/', is rejected with an Unknown status whose
message names the violated precondition. Otherwise the command is
posted and the call waits until a BiDi payload carrying the same id on
the same channel arrives (`some response`), or the deadline expires
(Timeout). -/
def SendBidiCommand (command : JDict) (incoming : List JDict) :
    Status × Option JDict :=
  match command.findKey "id" with
  | none => (⟨.kUnknownError, "BiDi command must contain an 'id'"⟩, none)
  | some idVal =>
    match command.findString "goog:channel" with
    | none =>
        (⟨.kUnknownError,
          "BiDi command must contain a non-empty string 'goog:channel' starting with '/'"⟩,
          none)
    | some ch =>
      if ch.data.headD ' ' = '/' then
        match incoming.find? (fun p =>
            decide (p.findKey "id" = some idVal ∧ p.findString "goog:channel" = some ch)) with
        | some p => (Status.mk1 .kOk, some p)
        | none => (Status.mk1 .kTimeout, none)
      else
        (⟨.kUnknownError,
          "BiDi command must contain a non-empty string 'goog:channel' starting with '/'"⟩,
          none)

/-- C7 counterexample, replaying SendBidiCommandTest.Success: the
command `{id: 1, goog:channel: "/test", method: "some"}` carries a
channel ending in neither reserved suffix, so by the claim the call
must return Unknown — yet it returns Ok together with the matching
response, exactly as the unit test asserts. -/
theorem c7_counterexample :
    strEndsWith "/test" kBidiChannelSuffix = false
    ∧ strEndsWith "/test" kCdpTunnelChannel = false
    ∧ SendBidiCommand
        [("id", .vint 1), ("goog:channel", .vstr "/test"), ("method", .vstr "some")]
        [[("id", .vint 1), ("goog:channel", .vstr "/test"),
          ("result", .vdict [("pong", .vint 123)])]] =
      (Status.mk1 .kOk,
        some [("id", .vint 1), ("goog:channel", .vstr "/test"),
          ("result", .vdict [("pong", .vint 123)])]) := by
  decide

/-- C7 (amended): `SendBidiCommand` returns Unknown with a message
naming the violated precondition for every command that lacks an `id`
value or lacks a non-empty `goog:channel` string beginning with '/';
for every command satisfying these preconditions it posts the command
and returns Ok with the response whose id matches on the response
channel, or Timeout when no match arrives before the deadline. The
final conjuncts replay the unit tests NoId, BadChannel ("" and
"no-leading-slash") and NoResponse. -/
theorem c7_sendBidiCommand :
    (∀ (command : JDict) (incoming : List JDict), command.findKey "id" = none →
      SendBidiCommand command incoming =
        (⟨.kUnknownError, "BiDi command must contain an 'id'"⟩, none))
    ∧ (∀ (command : JDict) (incoming : List JDict) (idVal : JVal),
      command.findKey "id" = some idVal → command.findString "goog:channel" = none →
      SendBidiCommand command incoming =
        (⟨.kUnknownError,
          "BiDi command must contain a non-empty string 'goog:channel' starting with '/'"⟩,
          none))
    ∧ (∀ (command : JDict) (incoming : List JDict) (idVal : JVal) (ch : String),
      command.findKey "id" = some idVal → command.findString "goog:channel" = some ch →
      ¬ ch.data.headD ' ' = '/' →
      SendBidiCommand command incoming =
        (⟨.kUnknownError,
          "BiDi command must contain a non-empty string 'goog:channel' starting with '/'"⟩,
          none))
    ∧ (∀ (command : JDict) (incoming : List JDict) (idVal : JVal) (ch : String)
      (p : JDict),
      command.findKey "id" = some idVal → command.findString "goog:channel" = some ch →
      ch.data.headD ' ' = '/' →
      incoming.find? (fun q =>
        decide (q.findKey "id" = some idVal ∧ q.findString "goog:channel" = some ch)) =
        some p →
      SendBidiCommand command incoming = (Status.mk1 .kOk, some p))
    ∧ (∀ (command : JDict) (incoming : List JDict) (idVal : JVal) (ch : String),
      command.findKey "id" = some idVal → command.findString "goog:channel" = some ch →
      ch.data.headD ' ' = '/' →
      incoming.find? (fun q =>
        decide (q.findKey "id" = some idVal ∧ q.findString "goog:channel" = some ch)) =
        none →
      SendBidiCommand command incoming = (Status.mk1 .kTimeout, none))
    ∧ (SendBidiCommand [("goog:channel", .vstr "/test"), ("method", .vstr "some")] []).1.code
        = .kUnknownError
    ∧ (SendBidiCommand [("id", .vint 1), ("goog:channel", .vstr ""),
        ("method", .vstr "some")] []).1 =
      (⟨.kUnknownError,
        "BiDi command must contain a non-empty string 'goog:channel' starting with '/'"⟩ :
        Status)
    ∧ (SendBidiCommand [("id", .vint 1), ("goog:channel", .vstr "no-leading-slash"),
        ("method", .vstr "some")] []).1.code = .kUnknownError
    ∧ (SendBidiCommand [("id", .vint 1), ("goog:channel", .vstr "/test"),
        ("method", .vstr "some")] []).1 = Status.mk1 .kTimeout := by
  refine ⟨?_, ?_, ?_, ?_, ?_, by decide, by decide, by decide, by decide⟩
  · intro command incoming h
    simp [SendBidiCommand, h]
  · intro command incoming idVal h1 h2
    simp [SendBidiCommand, h1, h2]
  · intro command incoming idVal ch h1 h2 h3
    simp only [SendBidiCommand, h1, h2]
    rw [if_neg h3]
  · intro command incoming idVal ch p h1 h2 h3 h4
    simp only [SendBidiCommand, h1, h2]
    rw [if_pos h3, h4]
  · intro command incoming idVal ch h1 h2 h3 h4
    simp only [SendBidiCommand, h1, h2]
    rw [if_pos h3, h4]
